import Mathlib

/-
Verification of the pypyueye acquisition layer (camera.py, threads.py).

The Python source is shallowly embedded: the background acquisition loop
`GatherThread.run` becomes a step function over an explicit state record,
driven by a list of fetch outcomes; the pure helpers of `Camera` and
`MultiFrameThread` become Lean functions on ℚ / ℤ / String.
-/

/-- Outcome of one `ueye.is_WaitForNextImage` call inside
`GatherThread.run` (threads.py, lines 59-62): either the driver delivers a
frame at wall-clock time `t` (`ret == IS_SUCCESS`), in which case the
sink's `process` callback runs and may raise an exception, or the wait
times out (`ret != IS_SUCCESS`). -/
inductive FetchOutcome where
  | success (t : ℚ) (sinkRaises : Bool)
  | timeout
deriving DecidableEq

/-- Whether the outcome is a delivered frame (`ret == IS_SUCCESS`). -/
def FetchOutcome.isSuccess : FetchOutcome → Bool
  | .success _ _ => true
  | .timeout => false

/-- Whether the outcome is a delivered frame whose sink callback raises. -/
def FetchOutcome.raises : FetchOutcome → Bool
  | .success _ r => r
  | .timeout => false

/-- Observable state of a `GatherThread` (threads.py, lines 42-81).
`running` is `self.running`; `alive` is false once an uncaught exception
from the sink callback has escaped `run` and killed the thread; `d` is
`self.d`; `capt_time` is `self.capt_time` (initially `-1`); `unlocks`
counts the calls to `image_data.unlock()`; `warnings` records, in order,
the value of `self.d` printed by each missed-frame warning. -/
structure GatherState where
  running : Bool
  alive : Bool
  d : ℕ
  capt_time : ℚ
  unlocks : ℕ
  warnings : List ℕ
deriving DecidableEq

/-- Initial state set up by `GatherThread.__init__` (threads.py,
lines 43-54): `running = True`, `d = 0`, `capt_time = -1`. -/
def GatherThread.init : GatherState :=
  { running := true, alive := true, d := 0, capt_time := -1,
    unlocks := 0, warnings := [] }

/-- One iteration of the `while self.running` loop of `GatherThread.run`
(threads.py, lines 56-69), given the outcome of the wait call.  On
success: `self.capt_time = time.time()` and then `self._process(imdata)`,
which runs `self.process(image_data)`, then `self.d += 1`, then
`image_data.unlock()` (lines 74-77); an exception raised by `process`
propagates, so neither the increment nor the unlock happens and the
thread dies.  On timeout: the warning is printed with the current
`self.d` and then `self.d += 1` (lines 67-69). -/
def GatherThread.step (s : GatherState) (o : FetchOutcome) : GatherState :=
  match o with
  | .success t sinkRaises =>
      let s1 := { s with capt_time := t }
      if sinkRaises then
        { s1 with alive := false }
      else
        { s1 with d := s1.d + 1, unlocks := s1.unlocks + 1 }
  | .timeout =>
      { s with warnings := s.warnings ++ [s.d], d := s.d + 1 }

/-- The `while self.running` loop of `GatherThread.run` (threads.py,
lines 56-69), consuming a list of wait-call outcomes; the loop stops when
`running` is cleared or the thread has died from an uncaught exception. -/
def GatherThread.run (s : GatherState) : List FetchOutcome → GatherState
  | [] => s
  | o :: os =>
      if s.running && s.alive then GatherThread.run (GatherThread.step s o) os
      else s

theorem GatherThread.run_of_stuck (s : GatherState) (tr : List FetchOutcome)
    (h : (s.running && s.alive) = false) : GatherThread.run s tr = s := by
  cases tr with
  | nil => rfl
  | cons o os => simp [GatherThread.run, h]

theorem GatherThread.run_append (l1 l2 : List FetchOutcome) :
    ∀ s : GatherState,
    GatherThread.run s (l1 ++ l2)
      = GatherThread.run (GatherThread.run s l1) l2 := by
  induction l1 with
  | nil => intro s; rfl
  | cons o os ih =>
      intro s
      by_cases hc : (s.running && s.alive) = true
      · simp [GatherThread.run, hc, ih]
      · have hc' : (s.running && s.alive) = false := by
          simpa using hc
        simp [GatherThread.run, hc', GatherThread.run_of_stuck s l2 hc']

theorem GatherThread.run_no_raise (tr : List FetchOutcome) :
    ∀ s : GatherState, s.running = true → s.alive = true →
    (∀ o ∈ tr, FetchOutcome.raises o = false) →
    (GatherThread.run s tr).unlocks
        = s.unlocks + tr.countP FetchOutcome.isSuccess ∧
    (GatherThread.run s tr).running = true ∧
    (GatherThread.run s tr).alive = true := by
  induction tr with
  | nil => intro s hr ha _; simp [GatherThread.run, hr, ha]
  | cons o os ih =>
      intro s hr ha hnr
      have ho : FetchOutcome.raises o = false := hnr o (by simp)
      have hos : ∀ x ∈ os, FetchOutcome.raises x = false := by
        intro x hx; exact hnr x (by simp [hx])
      have hrun : GatherThread.run s (o :: os)
          = GatherThread.run (GatherThread.step s o) os := by
        simp [GatherThread.run, hr, ha]
      rw [hrun]
      cases o with
      | success t r =>
          have hb : r = false := by simpa [FetchOutcome.raises] using ho
          subst hb
          have hstep : GatherThread.step s (FetchOutcome.success t false) = { s with capt_time := t, d := s.d + 1, unlocks := s.unlocks + 1 } := by
            simp [GatherThread.step]
          rw [hstep]
          obtain ⟨h1, h2, h3⟩ := ih { s with capt_time := t, d := s.d + 1, unlocks := s.unlocks + 1 } (by simp [hr]) (by simp [ha]) hos
          refine ⟨?_, h2, h3⟩
          rw [h1]
          simp [List.countP_cons, FetchOutcome.isSuccess]
          omega
      | timeout =>
          have hstep : GatherThread.step s FetchOutcome.timeout = { s with warnings := s.warnings ++ [s.d], d := s.d + 1 } := rfl
          rw [hstep]
          obtain ⟨h1, h2, h3⟩ := ih { s with warnings := s.warnings ++ [s.d], d := s.d + 1 } (by simp [hr]) (by simp [ha]) hos
          refine ⟨?_, h2, h3⟩
          rw [h1]
          simp [List.countP_cons, FetchOutcome.isSuccess]

/-- C2 (counterexample): the claim says that after 3 consecutive fetch
timeouts the counter `d` still equals 0; in fact `GatherThread.run`
increments `self.d` on every miss (threads.py, line 69), so `d = 3`. -/
theorem c2_counterexample :
    (GatherThread.run GatherThread.init
        [FetchOutcome.timeout, FetchOutcome.timeout, FetchOutcome.timeout]).d
      = 3 ∧ (3 : ℕ) ≠ 0 := by
  constructor
  · rfl
  · decide

/-- C2 (amended): on each timeout the worker logs a missed-frame warning
tagged with the current value of `d` and then increments `d`; after 3
consecutive timeouts with no success the warnings carry tags 0, 1, 2,
the counter `d` equals 3, and `capt_time` still holds its initial unset
value `-1`. -/
theorem c2_timeout_behaviour :
    (GatherThread.run GatherThread.init
        [FetchOutcome.timeout, FetchOutcome.timeout, FetchOutcome.timeout]).warnings
      = [0, 1, 2] ∧
    (GatherThread.run GatherThread.init
        [FetchOutcome.timeout, FetchOutcome.timeout, FetchOutcome.timeout]).d
      = 3 ∧
    (GatherThread.run GatherThread.init
        [FetchOutcome.timeout, FetchOutcome.timeout, FetchOutcome.timeout]).capt_time
      = -1 := by
  refine ⟨rfl, rfl, ?_⟩
  norm_num [GatherThread.run, GatherThread.step, GatherThread.init]

/-- C1 (counterexample): one successful fetch whose sink `process`
callback raises leaves the buffer locked: `_process` (threads.py,
lines 74-77) has no try/finally, so the exception skips
`image_data.unlock()`, and after 1 successful fetch the unlock count is
0, not 1 as the claim demands. -/
theorem c1_counterexample :
    (GatherThread.run GatherThread.init [FetchOutcome.success 5 true]).unlocks = 0 ∧
    ¬ (GatherThread.run GatherThread.init [FetchOutcome.success 5 true]).unlocks = 1 := by
  constructor
  · rfl
  · decide

/-- C1 (amended): every successful fetch whose sink callback returns
normally is followed by exactly one unlock, so after N successful
fetches that all process cleanly exactly N unlocks have occurred (no
leak, no double unlock); but on the exit path where the sink's `process`
callback raises, the delivered buffer is never unlocked and the worker
thread dies, leaving the unlock count at the number of earlier clean
successes. -/
theorem c1_unlock_balance :
    (∀ tr : List FetchOutcome,
      (∀ o ∈ tr, FetchOutcome.raises o = false) →
      (GatherThread.run GatherThread.init tr).unlocks
        = tr.countP FetchOutcome.isSuccess) ∧
    (∀ (pre rest : List FetchOutcome) (t : ℚ),
      (∀ o ∈ pre, FetchOutcome.raises o = false) →
      (GatherThread.run GatherThread.init
          (pre ++ FetchOutcome.success t true :: rest)).unlocks
        = pre.countP FetchOutcome.isSuccess ∧
      (GatherThread.run GatherThread.init
          (pre ++ FetchOutcome.success t true :: rest)).alive = false) := by
  constructor
  · intro tr hnr
    simpa [GatherThread.init]
      using (GatherThread.run_no_raise tr GatherThread.init rfl rfl hnr).1
  · intro pre rest t hnr
    obtain ⟨h1, h2, h3⟩ :=
      GatherThread.run_no_raise pre GatherThread.init rfl rfl hnr
    have happ := GatherThread.run_append pre
      (FetchOutcome.success t true :: rest) GatherThread.init
    have hrun1 : GatherThread.run (GatherThread.run GatherThread.init pre)
        (FetchOutcome.success t true :: rest)
        = GatherThread.run (GatherThread.step
            (GatherThread.run GatherThread.init pre)
            (FetchOutcome.success t true)) rest := by
      simp [GatherThread.run, h2, h3]
    have hstep : GatherThread.step (GatherThread.run GatherThread.init pre) (FetchOutcome.success t true) = { GatherThread.run GatherThread.init pre with capt_time := t, alive := false } := by
      simp [GatherThread.step]
    have hdead : GatherThread.run ({ GatherThread.run GatherThread.init pre with capt_time := t, alive := false }) rest = { GatherThread.run GatherThread.init pre with capt_time := t, alive := false } :=
      GatherThread.run_of_stuck _ _ (by simp)
    rw [happ, hrun1, hstep, hdead]
    refine ⟨?_, rfl⟩
    simpa [GatherThread.init] using h1

/-- C1 (witness): the amended unlock-balance theorem applied to the
concrete traces [success, timeout] (two clean iterations, one unlock)
and [clean success, raising success] (thread dies with one unlock). -/
theorem c1_unlock_balance_witness :
    (GatherThread.run GatherThread.init
        [FetchOutcome.success 2 false, FetchOutcome.timeout]).unlocks
      = List.countP FetchOutcome.isSuccess
          [FetchOutcome.success 2 false, FetchOutcome.timeout] ∧
    (GatherThread.run GatherThread.init
        ([FetchOutcome.success 2 false] ++ FetchOutcome.success 3 true :: [])).unlocks
      = List.countP FetchOutcome.isSuccess [FetchOutcome.success 2 false] ∧
    (GatherThread.run GatherThread.init
        ([FetchOutcome.success 2 false] ++ FetchOutcome.success 3 true :: [])).alive
      = false :=
  ⟨c1_unlock_balance.1 [FetchOutcome.success 2 false, FetchOutcome.timeout]
      (by decide),
   (c1_unlock_balance.2 [FetchOutcome.success 2 false] [] 3 (by decide)).1,
   (c1_unlock_balance.2 [FetchOutcome.success 2 false] [] 3 (by decide)).2⟩

/-- Observable state of a `MultiFrameThread` saving ordinary image files
(threads.py, lines 126-187, `file_type != '.envi'`): `running` is the
inherited `self.running`, `d` is `self.d`, and `writes` records, in
order, the value of `self.d` current at each `iio.imwrite` call. -/
structure MFState where
  running : Bool
  d : ℕ
  writes : List ℕ
deriving DecidableEq

/-- Initial `MultiFrameThread` state (threads.py, lines 43-54 via
`super().__init__`): `running = True`, `d = 0`, no frame written yet. -/
def MultiFrameThread.init : MFState :=
  { running := true, d := 0, writes := [] }

/-- Method `MultiFrameThread.stop_check` (threads.py, lines 157-163):
with `max_frames > 0` it stops the thread and returns True when
`self.d + 2 > self.max_frames`; with `max_frames <= 0` it returns None,
which is falsy (modelled as `false`). -/
def MultiFrameThread.stop_check (max_frames : ℤ) (d : ℕ) : Bool :=
  if 0 < max_frames then decide ((d : ℤ) + 2 > max_frames) else false

/-- Per-frame action the image-sequence `MultiFrameThread` actually
performs on a successful fetch.  `set_process` (threads.py,
lines 166-186) defines its `process` closures as local functions and
never binds them to `self.process` (their selection also sits behind the
malformed condition on line 167), so the worker keeps the inherited
no-op `GatherThread.process` (threads.py, lines 71-72): `_process`
(lines 74-77) runs the no-op, increments `self.d` and unlocks; nothing
is written and `stop_check` is never called. -/
def MultiFrameThread.actual_step (s : MFState) : MFState :=
  if s.running then { s with d := s.d + 1 } else s

/-- State of an image-sequence `MultiFrameThread` after `n` successful
fetches, as the program actually behaves. -/
def MultiFrameThread.actual_steps : ℕ → MFState
  | 0 => MultiFrameThread.init
  | n + 1 => MultiFrameThread.actual_step (MultiFrameThread.actual_steps n)

/-- C3 (code evaluated at the failing input): because `set_process`
never binds its `process` closure, a `MultiFrameThread` with
`max_frames = 5` writes no frame at all and never stops on its own:
after any number of successful fetches — in particular after 10 — the
write list is empty and `running` is still true, against the claim's 4
written frames and a stop once the check first succeeds at `d = 4`.
The real `stop_check` method would indeed first fire at `d = 4` for
`max_frames = 5` (true at `d = 4`, false at `d = 3`), but the worker
never calls it; and the closure's own text writes each frame before the
check, so even the intended binding would give 5 frames, not 4. -/
theorem c3_process_never_bound :
    (∀ n : ℕ, MultiFrameThread.actual_steps n
      = { running := true, d := n, writes := [] }) ∧
    (MultiFrameThread.actual_steps 10).writes = [] ∧
    (MultiFrameThread.actual_steps 10).running = true ∧
    ¬ ((MultiFrameThread.actual_steps 10).writes.length = 4) ∧
    MultiFrameThread.stop_check 5 4 = true ∧
    MultiFrameThread.stop_check 5 3 = false := by
  have hall : ∀ n : ℕ, MultiFrameThread.actual_steps n
      = { running := true, d := n, writes := [] } := by
    intro n
    induction n with
    | zero => rfl
    | succ n ih =>
        rw [MultiFrameThread.actual_steps, ih]
        rfl
  refine ⟨hall, ?_, ?_, ?_, ?_, ?_⟩
  · rw [hall 10]
  · rw [hall 10]
  · rw [hall 10]
    decide
  · decide
  · decide

/-- Rounding performed by Python float formatting with zero decimal
places, as in the format expression of `MultiFrameThread.time_str`
(threads.py, line 149): round to the nearest integer, ties to even. -/
def roundHalfEven (q : ℚ) : ℤ :=
  if q - ⌊q⌋ < 1/2 then ⌊q⌋
  else if q - ⌊q⌋ > 1/2 then ⌊q⌋ + 1
  else if ⌊q⌋ % 2 = 0 then ⌊q⌋ else ⌊q⌋ + 1

/-- Method `MultiFrameThread.time_str` (threads.py, lines 148-149):
formats `self.capt_time * 1000` with zero decimal places, producing the
decimal digits of the millisecond timestamp rounded to the nearest
integer (ties to even); modelled as the resulting integer. -/
def MultiFrameThread.time_str (capt_time : ℚ) : ℤ :=
  roundHalfEven (capt_time * 1000)

/-- Method `MultiFrameThread.set_path` (threads.py, lines 152-154):
`self.folder + self.base_name + self.time_str() + self.file_type`. -/
def MultiFrameThread.set_path (folder base_name : String) (capt_time : ℚ)
    (file_type : String) : String :=
  folder ++ base_name ++ toString (MultiFrameThread.time_str capt_time) ++ file_type

/-- Timestamp component as the specification words it: the capture time
in milliseconds truncated (floored) to an integer. -/
def spec_time_str (capt_time : ℚ) : ℤ := ⌊capt_time * 1000⌋

/-- Per-frame file path as the specification words it:
folder + base_name + floor(capt_time_ms) + extension. -/
def spec_set_path (folder base_name : String) (capt_time : ℚ)
    (file_type : String) : String :=
  folder ++ base_name ++ toString (spec_time_str capt_time) ++ file_type

/-- Module-level constant `ENVI_FLUSHING_N` (threads.py, line 39): how
often the envi memmap is flushed to disk. -/
def ENVI_FLUSHING_N : ℕ := 100

/-- Observable state of a `MultiFrameThread` in envi (cube-stream) mode
(threads.py, lines 166-182): `writes` records the value of `self.d` at
each write into the memmap, `flushes` the value of `self.d` at each
`self.map.flush()` call, and `timings` the appended timing-log entries
(all three stay empty in the program as written, since the envi
`process` closure is never bound). -/
structure EnviState where
  running : Bool
  d : ℕ
  capt_time : ℚ
  writes : List ℕ
  flushes : List ℕ
  timings : List ℤ
deriving DecidableEq

/-- Initial state of an envi `MultiFrameThread`. -/
def MultiFrameThread.envi_init : EnviState :=
  { running := true, d := 0, capt_time := -1, writes := [], flushes := [],
    timings := [] }

/-- Event seen by the envi worker loop: either a successful fetch at
time `t`, or an external call of `stop()` from another thread. -/
inductive EnviEvent where
  | frame (t : ℚ)
  | extStop
deriving DecidableEq

/-- Event processing the envi-mode `MultiFrameThread` actually performs.
The envi `process` closure (threads.py, lines 171-182) is defined inside
`set_process` but never bound to `self.process`, and its selection sits
behind the malformed condition on line 167; a successful fetch therefore
runs the inherited no-op `process`: the run loop records `capt_time` and
`_process` increments `d`, but the memmap is never written, the timing
log never appended, and no flush ever happens.  An external `stop()`
(threads.py, lines 79-81) clears `running`. -/
def MultiFrameThread.envi_actual_step (s : EnviState) (e : EnviEvent) :
    EnviState :=
  match e with
  | .extStop => { s with running := false }
  | .frame t =>
      if s.running then { s with capt_time := t, d := s.d + 1 } else s

/-- The envi worker processing a list of events in order, as the program
actually behaves. -/
def MultiFrameThread.envi_actual_run (s : EnviState) :
    List EnviEvent → EnviState
  | [] => s
  | e :: es =>
      MultiFrameThread.envi_actual_run
        (MultiFrameThread.envi_actual_step s e) es

theorem MultiFrameThread.envi_actual_run_append (l1 l2 : List EnviEvent) :
    ∀ s : EnviState,
    MultiFrameThread.envi_actual_run s (l1 ++ l2)
      = MultiFrameThread.envi_actual_run
          (MultiFrameThread.envi_actual_run s l1) l2 := by
  induction l1 with
  | nil => intro s; rfl
  | cons e es ih => intro s; simp [MultiFrameThread.envi_actual_run, ih]

theorem MultiFrameThread.envi_actual_run_frames (k : ℕ) :
    MultiFrameThread.envi_actual_run MultiFrameThread.envi_init
        (List.replicate k (EnviEvent.frame 0))
      = { running := true, d := k, capt_time := if k = 0 then -1 else 0,
          writes := [], flushes := [], timings := [] } := by
  induction k with
  | zero => rfl
  | succ k ih =>
      rw [List.replicate_succ', MultiFrameThread.envi_actual_run_append, ih]
      simp [MultiFrameThread.envi_actual_run, MultiFrameThread.envi_actual_step]

/-- C4 (code evaluated at the failing input): because the envi `process`
closure is never bound, a cube-stream worker with `max_frames = 250`
that fetches 250 frames successfully performs no memmap write and no
flush whatsoever — not the claimed flushes at `d = 0, 100, 200` — and
when the run is then terminated by an external `stop()`, the flush list
is still empty, against the claimed unconditional flush at
termination. -/
theorem c4_process_never_bound :
    (MultiFrameThread.envi_actual_run MultiFrameThread.envi_init
        (List.replicate 250 (EnviEvent.frame 0))).flushes = [] ∧
    (MultiFrameThread.envi_actual_run MultiFrameThread.envi_init
        (List.replicate 250 (EnviEvent.frame 0))).writes = [] ∧
    (MultiFrameThread.envi_actual_run MultiFrameThread.envi_init
        (List.replicate 250 (EnviEvent.frame 0))).d = 250 ∧
    ¬ ((MultiFrameThread.envi_actual_run MultiFrameThread.envi_init
        (List.replicate 250 (EnviEvent.frame 0))).flushes = [0, 100, 200]) ∧
    (MultiFrameThread.envi_actual_run MultiFrameThread.envi_init
        (List.replicate 250 (EnviEvent.frame 0) ++ [EnviEvent.extStop])).running
      = false ∧
    (MultiFrameThread.envi_actual_run MultiFrameThread.envi_init
        (List.replicate 250 (EnviEvent.frame 0) ++ [EnviEvent.extStop])).flushes
      = [] := by
  have h1 := MultiFrameThread.envi_actual_run_frames 250
  have h2 : MultiFrameThread.envi_actual_run MultiFrameThread.envi_init
      (List.replicate 250 (EnviEvent.frame 0) ++ [EnviEvent.extStop])
      = { running := false, d := 250, capt_time := 0,
          writes := [], flushes := [], timings := [] } := by
    rw [MultiFrameThread.envi_actual_run_append, h1]
    rfl
  rw [h1, h2]
  exact ⟨rfl, rfl, rfl, by decide, rfl, rfl⟩

/-- C7 (counterexample): at `capt_time = 0.0017` seconds the millisecond
value is 1.7; the format expression of `time_str` (threads.py, line 149)
rounds it to 2, while the claimed floor would give 1, so the generated
path differs from the claimed one. -/
theorem c7_counterexample :
    MultiFrameThread.time_str (17/10000) = 2 ∧
    spec_time_str (17/10000) = 1 ∧
    ¬ (MultiFrameThread.set_path "f/" "img" (17/10000) ".png"
        = spec_set_path "f/" "img" (17/10000) ".png") := by
  have h1 : MultiFrameThread.time_str (17/10000) = 2 := by
    norm_num [MultiFrameThread.time_str, roundHalfEven]
  have h2 : spec_time_str (17/10000) = 1 := by
    norm_num [spec_time_str]
  refine ⟨h1, h2, ?_⟩
  rw [MultiFrameThread.set_path, spec_set_path, h1, h2]
  decide

/-- C7 (amended): the per-frame file path equals
folder + base_name + timestamp + extension where the timestamp
component is the capture time in milliseconds rounded to the nearest
integer (so it differs from the true millisecond value by at most 1/2,
with ties broken to an even integer), not truncated (floored). -/
theorem c7_rounded_path (capt_time : ℚ) (folder base_name file_type : String) :
    MultiFrameThread.set_path folder base_name capt_time file_type
      = folder ++ base_name ++ toString (MultiFrameThread.time_str capt_time)
          ++ file_type ∧
    |(MultiFrameThread.time_str capt_time : ℚ) - capt_time * 1000| ≤ 1/2 ∧
    (capt_time * 1000 - ⌊capt_time * 1000⌋ = 1/2 →
      MultiFrameThread.time_str capt_time % 2 = 0) := by
  refine ⟨rfl, ?_, ?_⟩
  · have h0 : ((⌊capt_time * 1000⌋ : ℚ)) ≤ capt_time * 1000 :=
      Int.floor_le (capt_time * 1000)
    have h1 : capt_time * 1000 < ⌊capt_time * 1000⌋ + 1 :=
      Int.lt_floor_add_one (capt_time * 1000)
    rw [MultiFrameThread.time_str, roundHalfEven]
    split_ifs with hlt hgt heven
    · rw [abs_le]
      constructor <;> linarith
    · rw [abs_le]
      push_cast
      constructor <;> linarith
    · rw [abs_le]
      constructor <;> linarith
    · rw [abs_le]
      push_cast
      constructor <;> linarith
  · intro htie
    rw [MultiFrameThread.time_str, roundHalfEven]
    split_ifs with hlt hgt heven
    · linarith
    · linarith
    · exact heven
    · omega

/-- C7 (witness): the amended rounding theorem applied at the concrete
tie `capt_time = 1/2000` s (millisecond value 1/2, rounded to the even
integer 0). -/
theorem c7_rounded_path_witness :
    MultiFrameThread.time_str (1/2000) % 2 = 0 ∧
    |(MultiFrameThread.time_str (1/2000) : ℚ) - (1/2000) * 1000| ≤ 1/2 :=
  ⟨(c7_rounded_path (1/2000) "a" "b" ".png").2.2 (by norm_num),
   (c7_rounded_path (1/2000) "a" "b" ".png").2.1⟩

/-- Python int() truncation toward zero, applied to a rational. -/
def pyInt (q : ℚ) : ℤ := if 0 ≤ q then ⌊q⌋ else ⌈q⌉

/-- Method `Camera.__get_timeout` (camera.py, lines 321-325): takes the
current fps (replacing 0 by 1), and returns
`int(1.5*(1/fps)+1)*1000`. -/
def Camera.get_timeout (fps : ℚ) : ℤ :=
  let f := if fps = 0 then 1 else fps
  pyInt (3/2 * (1/f) + 1) * 1000

/-- Timeout resolution shared by `Camera.capture_image` (camera.py,
lines 346-348) and `Camera.capture_images` (lines 364-366): when no
timeout argument is given (None), the default is `__get_timeout()`. -/
def Camera.resolve_timeout (timeout : Option ℤ) (fps : ℚ) : ℤ :=
  match timeout with
  | none => Camera.get_timeout fps
  | some t => t

/-- Default timeout as the specification words it: `1.5 × (1/fps) + 1`
seconds expressed in milliseconds, with fps = 0 replaced by 1. -/
def spec_timeout (fps : ℚ) : ℚ :=
  (3/2 * (1/(if fps = 0 then 1 else fps)) + 1) * 1000

/-- C6 (counterexample): at fps = 1 the code computes
`int(1.5*(1/1)+1)*1000 = int(2.5)*1000 = 2000` ms, while the claimed
value `1.5 × (1/1) + 1` seconds in milliseconds is 2500 ms: the `int()`
truncation happens before the conversion to milliseconds. -/
theorem c6_counterexample :
    Camera.resolve_timeout none 1 = 2000 ∧
    spec_timeout 1 = 2500 ∧
    ¬ ((Camera.resolve_timeout none 1 : ℚ) = spec_timeout 1) := by
  have h1 : Camera.resolve_timeout none 1 = 2000 := by
    simp only [Camera.resolve_timeout, Camera.get_timeout, pyInt]
    norm_num
  have h2 : spec_timeout 1 = 2500 := by
    norm_num [spec_timeout]
  refine ⟨h1, h2, ?_⟩
  rw [h1, h2]
  norm_num

/-- C6 (amended): for every nonnegative fps, the default fetch timeout
used by capture_image and capture_images when no timeout argument is
given equals `1.5 × (1/f) + 1` seconds truncated to a whole number of
seconds and then expressed in milliseconds (with f = 0 replaced by 1);
it therefore underestimates the claimed untruncated value by less than
one second. -/
theorem c6_default_timeout (fps : ℚ) (hfps : 0 ≤ fps) :
    Camera.resolve_timeout none fps = Camera.get_timeout fps ∧
    Camera.get_timeout fps
      = ⌊3/2 * (1/(if fps = 0 then 1 else fps)) + 1⌋ * 1000 ∧
    spec_timeout fps - 1000 < (Camera.get_timeout fps : ℚ) ∧
    (Camera.get_timeout fps : ℚ) ≤ spec_timeout fps := by
  have hf : (0 : ℚ) < (if fps = 0 then 1 else fps) := by
    split_ifs with h
    · norm_num
    · exact lt_of_le_of_ne hfps (Ne.symm h)
  have hx : (0 : ℚ) ≤ 3/2 * (1/(if fps = 0 then 1 else fps)) + 1 := by
    have : (0 : ℚ) < 1/(if fps = 0 then 1 else fps) := by positivity
    linarith
  have hcode : Camera.get_timeout fps
      = ⌊3/2 * (1/(if fps = 0 then 1 else fps)) + 1⌋ * 1000 := by
    rw [Camera.get_timeout, pyInt, if_pos hx]
  have hfl : ((⌊3/2 * (1/(if fps = 0 then 1 else fps)) + 1⌋ : ℚ))
      ≤ 3/2 * (1/(if fps = 0 then 1 else fps)) + 1 :=
    Int.floor_le _
  have hfu : 3/2 * (1/(if fps = 0 then 1 else fps)) + 1
      < ⌊3/2 * (1/(if fps = 0 then 1 else fps)) + 1⌋ + 1 :=
    Int.lt_floor_add_one _
  refine ⟨rfl, hcode, ?_, ?_⟩
  · rw [hcode, spec_timeout]
    push_cast
    linarith
  · rw [hcode, spec_timeout]
    push_cast
    linarith

/-- C6 (witness): the amended timeout theorem at fps = 2: the code gives
1000 ms, the untruncated spec value is 1750 ms. -/
theorem c6_default_timeout_witness :
    Camera.resolve_timeout none 2 = Camera.get_timeout 2 ∧
    Camera.get_timeout 2 = ⌊(3:ℚ)/2 * (1/(if (2:ℚ) = 0 then 1 else 2)) + 1⌋ * 1000 ∧
    spec_timeout 2 - 1000 < (Camera.get_timeout 2 : ℚ) ∧
    (Camera.get_timeout 2 : ℚ) ≤ spec_timeout 2 :=
  c6_default_timeout 2 (by norm_num)

/-- Loop body of `Camera.capture_images` (camera.py, lines 370-383),
given the success of each `is_WaitForNextImage` call: on success the
frame (modelled by its index) is appended to `ims`; on a miss the
warning `print("Warning: Missed %dth frame !" % d)` references the
undefined name `d`, so Python raises a NameError that aborts the whole
call (no None is appended, the loop does not continue, and the
stop_video / set_gpio calls after the loop are skipped). -/
def Camera.capture_images_loop (i : ℕ) : List Bool → Except String (List (Option ℕ))
  | [] => Except.ok []
  | ret :: rets =>
      if ret then
        Except.map (fun ims => some i :: ims) (Camera.capture_images_loop (i + 1) rets)
      else
        Except.error "NameError: name d is not defined"

/-- Method `Camera.capture_images` (camera.py, lines 364-387), modelled
on the list of wait-call outcomes for the `nmb` requested frames. -/
def Camera.capture_images (waitResults : List Bool) :
    Except String (List (Option ℕ)) :=
  Camera.capture_images_loop 0 waitResults

/-- C5 (code evaluated at the failing input): a 2-frame capture whose
first wait times out raises NameError (the miss branch prints `% d` with
`d` undefined, camera.py line 382) instead of recording None and
continuing; an all-success 2-frame capture returns both frames. -/
theorem c5_missed_frame_aborts :
    Camera.capture_images [false, true]
      = Except.error "NameError: name d is not defined" ∧
    Camera.capture_images [true, false]
      = Except.error "NameError: name d is not defined" ∧
    Camera.capture_images [true, true] = Except.ok [some 0, some 1] := by
  refine ⟨rfl, rfl, rfl⟩

/-- Camera state relevant to fps handling (camera.py, lines 35-39 and
165-199): the cached `self.current_fps`, the fps range reported by
`get_fps_range`, and the external driver calls `is_SetFrameRate` (which
reports the actual applied fps for a requested value) and
`is_GetFramesPerSecond`. -/
structure FpsCam where
  current_fps : Option ℚ
  range_min : ℚ
  range_max : ℚ
  driverSetFrameRate : ℚ → ℚ
  driverGetFps : ℚ

/-- Method `Camera.set_fps` (camera.py, lines 165-184): clamps the
requested fps into `[range_min, range_max]` by two successive ifs,
passes the clamped value to `is_SetFrameRate`, caches the
driver-reported `new_fps` in `self.current_fps`, and returns it. -/
def Camera.set_fps (c : FpsCam) (fps : ℚ) : ℚ × FpsCam :=
  let fps1 := if fps < c.range_min then c.range_min else fps
  let fps2 := if fps1 > c.range_max then c.range_max else fps1
  let new_fps := c.driverSetFrameRate fps2
  (new_fps, { c with current_fps := some new_fps })

/-- Method `Camera.get_fps` (camera.py, lines 186-199): returns the
cached `self.current_fps` when it is not None, else queries the driver
via `is_GetFramesPerSecond`. -/
def Camera.get_fps (c : FpsCam) : ℚ :=
  match c.current_fps with
  | some f => f
  | none => c.driverGetFps

/-- C8 (counterexample): with range [2, 10] and a driver whose
`is_SetFrameRate` reports an actual fps of requested + 1/10, a request
of 1 (below range) returns the driver-reported 21/10, not the range
minimum 2 as the claim states: the code clamps the request but returns
`new_fps`, the driver-reported value, in every case. -/
theorem c8_counterexample :
    (Camera.set_fps
        { current_fps := none, range_min := 2, range_max := 10,
          driverSetFrameRate := fun q => q + 1/10, driverGetFps := 0 } 1).1
      = 21/10 ∧
    ¬ ((Camera.set_fps
        { current_fps := none, range_min := 2, range_max := 10,
          driverSetFrameRate := fun q => q + 1/10, driverGetFps := 0 } 1).1
      = 2) := by
  constructor
  · norm_num [Camera.set_fps]
  · norm_num [Camera.set_fps]

/-- C8 (amended): `set_fps(target)` clamps the target into the range
given by `get_fps_range` before applying it — below range the range
minimum is applied, above range the range maximum, in range the target
itself — and in every case it returns the driver-reported actual fps
for the applied (clamped) value, which may differ from it; the returned
actual value, not the input, is cached, and a subsequent `get_fps()`
returns that cached value regardless of what the driver's
`is_GetFramesPerSecond` would report. -/
theorem c8_set_fps_clamps (c : FpsCam) (target : ℚ)
    (h : c.range_min ≤ c.range_max) :
    (Camera.set_fps c target).1
      = c.driverSetFrameRate (min (max target c.range_min) c.range_max) ∧
    (target < c.range_min →
      (Camera.set_fps c target).1 = c.driverSetFrameRate c.range_min) ∧
    (c.range_max < target →
      (Camera.set_fps c target).1 = c.driverSetFrameRate c.range_max) ∧
    (c.range_min ≤ target → target ≤ c.range_max →
      (Camera.set_fps c target).1 = c.driverSetFrameRate target) ∧
    (Camera.set_fps c target).2.current_fps = some (Camera.set_fps c target).1 ∧
    Camera.get_fps (Camera.set_fps c target).2 = (Camera.set_fps c target).1 ∧
    (∀ g : ℚ, Camera.get_fps
        { (Camera.set_fps c target).2 with driverGetFps := g }
      = (Camera.set_fps c target).1) := by
  have hmain : (Camera.set_fps c target).1
      = c.driverSetFrameRate (min (max target c.range_min) c.range_max) := by
    rw [Camera.set_fps]
    by_cases h1 : target < c.range_min
    · have hmax : max target c.range_min = c.range_min := max_eq_right (le_of_lt h1)
      have hmin : min c.range_min c.range_max = c.range_min := min_eq_left h
      simp [h1, hmax, hmin, not_lt.mpr h]
    · have hmax : max target c.range_min = target := max_eq_left (not_lt.mp h1)
      by_cases h2 : target > c.range_max
      · have hmin : min target c.range_max = c.range_max := min_eq_right (le_of_lt h2)
        simp [h1, h2, hmax, hmin]
      · have hmin : min target c.range_max = target := min_eq_left (not_lt.mp h2)
        simp [h1, h2, hmax, hmin]
  refine ⟨hmain, ?_, ?_, ?_, rfl, rfl, fun g => rfl⟩
  · intro h1
    rw [hmain, max_eq_right (le_of_lt h1), min_eq_left h]
  · intro h2
    rw [hmain, max_eq_left (le_trans h (le_of_lt h2)), min_eq_right (le_of_lt h2)]
  · intro h1 h2
    rw [hmain, max_eq_left h1, min_eq_left h2]

/-- C8 (witness): the amended clamping theorem at the concrete camera
with range [2, 10], an identity driver, and a below-range target 1. -/
theorem c8_set_fps_clamps_witness :
    (Camera.set_fps
        { current_fps := none, range_min := 2, range_max := 10,
          driverSetFrameRate := fun q => q, driverGetFps := 7 } 1).1
      = (fun q => q) (min (max 1 2) 10) ∧
    Camera.get_fps
        (Camera.set_fps
          { current_fps := none, range_min := 2, range_max := 10,
            driverSetFrameRate := fun q => q, driverGetFps := 7 } 1).2
      = (Camera.set_fps
          { current_fps := none, range_min := 2, range_max := 10,
            driverSetFrameRate := fun q => q, driverGetFps := 7 } 1).1 :=
  ⟨(c8_set_fps_clamps
      { current_fps := none, range_min := 2, range_max := 10,
        driverSetFrameRate := fun q => q, driverGetFps := 7 } 1
      (by norm_num)).1,
   (c8_set_fps_clamps
      { current_fps := none, range_min := 2, range_max := 10,
        driverSetFrameRate := fun q => q, driverGetFps := 7 } 1
      (by norm_num)).2.2.2.2.2.1⟩

/-- Driver success code `ueye.IS_SUCCESS` (0). -/
def IS_SUCCESS : ℤ := 0

/-- Method `Camera.exit` (camera.py, lines 91-99): `ret = None`; if the
handle is not None, `ret = is_ExitCamera(h_cam)`; the handle is set to
None only when `ret == IS_SUCCESS` (Python's `None == 0` is False, so a
None `ret` never triggers the reset).  The driver call is modelled by a
function from handle values to return codes; the camera state by the
optional handle. -/
def Camera.exit (is_ExitCamera : ℕ → ℤ) (h_cam : Option ℕ) : Option ℕ :=
  let ret : Option ℤ := Option.map is_ExitCamera h_cam
  if ret = some IS_SUCCESS then none else h_cam

/-- C9: `exit()` is a no-op on an already-closed handle, closes the
handle exactly when the driver call returns IS_SUCCESS, leaves it
unchanged otherwise, and is idempotent: for every camera state, calling
it twice has the same effect on the state as calling it once. -/
theorem c9_exit_idempotent (dr : ℕ → ℤ) (s : Option ℕ) :
    Camera.exit dr none = none ∧
    (∀ h : ℕ, dr h = IS_SUCCESS → Camera.exit dr (some h) = none) ∧
    (∀ h : ℕ, dr h ≠ IS_SUCCESS → Camera.exit dr (some h) = some h) ∧
    Camera.exit dr (Camera.exit dr s) = Camera.exit dr s := by
  refine ⟨rfl, ?_, ?_, ?_⟩
  · intro h hdr
    simp [Camera.exit, hdr]
  · intro h hdr
    simp [Camera.exit, hdr]
  · cases s with
    | none => rfl
    | some h =>
        by_cases hdr : dr h = IS_SUCCESS
        · simp [Camera.exit, hdr]
        · simp [Camera.exit, hdr]

/-- C9 (witness): the idempotence theorem at concrete drivers: one that
succeeds (handle 3 closes, stays closed) and one that fails with code 1
(handle 3 stays open, and a second call changes nothing). -/
theorem c9_exit_idempotent_witness :
    Camera.exit (fun _ => 0) (some 3) = none ∧
    Camera.exit (fun _ => 1) (some 3) = some 3 ∧
    Camera.exit (fun _ => 1) (Camera.exit (fun _ => 1) (some 3))
      = Camera.exit (fun _ => 1) (some 3) ∧
    Camera.exit (fun _ => 0) none = none :=
  ⟨(c9_exit_idempotent (fun _ => 0) (some 3)).2.1 3 rfl,
   (c9_exit_idempotent (fun _ => 1) (some 3)).2.2.1 3 (by decide),
   (c9_exit_idempotent (fun _ => 1) (some 3)).2.2.2,
   (c9_exit_idempotent (fun _ => 0) none).1⟩

/-- Folder normalization in `MultiFrameThread.__init__` (threads.py,
lines 137-139): `if folder[-1] != '/': folder += '/'`; indexing
`folder[-1]` inspects the last character and raises IndexError (modelled
as `none`) when `folder` is the empty string. -/
def MultiFrameThread.norm_folder (folder : String) : Option String :=
  match folder.data.getLast? with
  | none => none
  | some c => if c ≠ '/' then some (folder ++ "/") else some folder

theorem String.data_append_model (a b : String) :
    (a ++ b).data = a.data ++ b.data := rfl

/-- C10: the constructor normalizes the folder argument: a non-empty
folder not ending in '/' is stored with '/' appended, a folder already
ending in '/' is stored unchanged — so every stored folder ends in the
separator — and the empty string makes the constructor fail (IndexError
on `folder[-1]`). -/
theorem c10_norm_folder (folder : String) :
    (folder.data.getLast? = none → MultiFrameThread.norm_folder folder = none) ∧
    (∀ c : Char, folder.data.getLast? = some c → c ≠ '/' →
      MultiFrameThread.norm_folder folder = some (folder ++ "/")) ∧
    (∀ c : Char, folder.data.getLast? = some c → c = '/' →
      MultiFrameThread.norm_folder folder = some folder) ∧
    (∀ g : String, MultiFrameThread.norm_folder folder = some g →
      g.data.getLast? = some '/') := by
  refine ⟨?_, ?_, ?_, ?_⟩
  · intro hempty
    rw [MultiFrameThread.norm_folder, hempty]
  · intro c hc hne
    rw [MultiFrameThread.norm_folder, hc]
    simp [hne]
  · intro c hc heq
    rw [MultiFrameThread.norm_folder, hc]
    simp [heq]
  · intro g hg
    rw [MultiFrameThread.norm_folder] at hg
    cases hlast : folder.data.getLast? with
    | none => rw [hlast] at hg; exact absurd hg (by simp)
    | some c =>
        rw [hlast] at hg
        by_cases hne : c = '/'
        · simp [hne] at hg
          rw [← hg, hlast, hne]
        · simp [hne] at hg
          rw [← hg, String.data_append_model]
          have : ("/" : String).data = ['/'] := rfl
          rw [this, List.getLast?_concat]

/-- C10 (witness): the folder-normalization theorem at concrete inputs:
"data" gains a separator, "out/" is kept unchanged, and the empty string
fails. -/
theorem c10_norm_folder_witness :
    MultiFrameThread.norm_folder "data" = some ("data" ++ "/") ∧
    MultiFrameThread.norm_folder "out/" = some "out/" ∧
    MultiFrameThread.norm_folder "" = none :=
  ⟨(c10_norm_folder "data").2.1 'a' rfl (by decide),
   (c10_norm_folder "out/").2.2.1 '/' rfl rfl,
   (c10_norm_folder "").1 rfl⟩
